import Mathlib

/-
Verification of the cryptotrace-ml risk-scoring pipeline.

The Python sources are shallowly embedded into Lean:
  * numeric dataframe cells become rationals (ℚ),
  * a dataframe row with a dynamic column set becomes either a structure
    (when the column set is statically known) or an association list
    from column names to values (when column lookup itself can fail,
    modelling a pandas KeyError as Option.none),
  * the numpy log1p routine is an opaque parameter of the indicator
    calculator (the source applies it to snd_tx_count),
  * pandas in-place column assignment on a shared frame object is
    modelled by an explicit object heap (object id → table).
-/

namespace CryptoTrace

namespace config

/-- src/config.py: RISK_THRESHOLD_CRITICAL = 75. -/
def RISK_THRESHOLD_CRITICAL : ℚ := 75

/-- src/config.py: RISK_THRESHOLD_HIGH = 50. -/
def RISK_THRESHOLD_HIGH : ℚ := 50

/-- src/config.py: RISK_THRESHOLD_MEDIUM = 25. -/
def RISK_THRESHOLD_MEDIUM : ℚ := 25

/-- src/config.py: RULE_LAYERING_SCORE = 80. -/
def RULE_LAYERING_SCORE : ℚ := 80

/-- src/config.py: RULE_STRUCTURING_HIGH_SCORE = 60. -/
def RULE_STRUCTURING_HIGH_SCORE : ℚ := 60

/-- src/config.py: RULE_STRUCTURING_MED_SCORE = 30. -/
def RULE_STRUCTURING_MED_SCORE : ℚ := 30

/-- src/config.py: RULE_SPAM_HIGH_SCORE = 50. -/
def RULE_SPAM_HIGH_SCORE : ℚ := 50

/-- src/config.py: RULE_SPAM_MED_SCORE = 20. -/
def RULE_SPAM_MED_SCORE : ℚ := 20

/-- src/config.py: RULE_VOLUME_ANOMALY_SCORE = 20. -/
def RULE_VOLUME_ANOMALY_SCORE : ℚ := 20

/-- src/config.py: STRUCTURING_MIN_TX = 5. -/
def STRUCTURING_MIN_TX : ℚ := 5

/-- src/config.py: STRUCTURING_HIGH_THRESHOLD = 2.0. -/
def STRUCTURING_HIGH_THRESHOLD : ℚ := 2

/-- src/config.py: STRUCTURING_MED_THRESHOLD = 1.0. -/
def STRUCTURING_MED_THRESHOLD : ℚ := 1

/-- src/config.py: PASSTHROUGH_RATIO_MIN = 0.9. -/
def PASSTHROUGH_RATIO_MIN : ℚ := 9/10

/-- src/config.py: PASSTHROUGH_RATIO_MAX = 1.1. -/
def PASSTHROUGH_RATIO_MAX : ℚ := 11/10

/-- src/config.py: PASSTHROUGH_MIN_AMOUNT = 10.0. -/
def PASSTHROUGH_MIN_AMOUNT : ℚ := 10

/-- src/config.py: BOT_HIGH_VELOCITY = 20. -/
def BOT_HIGH_VELOCITY : ℚ := 20

/-- src/config.py: BOT_MED_VELOCITY = 5. -/
def BOT_MED_VELOCITY : ℚ := 5

/-- src/config.py: VOLUME_ANOMALY_THRESHOLD = 100.0. -/
def VOLUME_ANOMALY_THRESHOLD : ℚ := 100

/-- src/config.py: ML_WEIGHT = 0.3. -/
def ML_WEIGHT : ℚ := 3/10

/-- src/config.py: RULE_WEIGHT = 0.7. -/
def RULE_WEIGHT : ℚ := 7/10

/-- src/config.py: MIN_TX_FOR_ML = 2. -/
def MIN_TX_FOR_ML : ℚ := 2

/-- src/config.py: ROUND_AMOUNTS = [0.1, 0.5, 1.0, 5.0, 10.0, 50.0, 100.0, 500.0, 1000.0]. -/
def ROUND_AMOUNTS : List ℚ := [1/10, 1/2, 1, 5, 10, 50, 100, 500, 1000]

/-- src/config.py: ML_FEATURES, the feature-column names used by the anomaly ensemble. -/
def ML_FEATURES : List String :=
  ["snd_tx_count", "snd_Amount_sum", "snd_unique_counterparties",
   "structuring_score", "passthrough_score", "bot_score"]

/-- src/config.py: VALIDATION_TARGETS, the synthetic actor addresses. -/
def VALIDATION_TARGETS : List String :=
  ["0xBAD_ACTOR_SMURFING", "0xBAD_ACTOR_LAYERING", "0xBAD_ACTOR_SPAMMER"]

end config

/-- The two score columns read by calculate_final_scores in
src/services/risk_engine.py. -/
structure ScoredWallet where
  risk_score_ml : ℚ
  risk_score_rule : ℚ
deriving DecidableEq

/-- src/services/risk_engine.py, calculate_final_scores: the FINAL_RISK_SCORE
column, ML_WEIGHT * risk_score_ml + RULE_WEIGHT * risk_score_rule followed by
pandas clip(upper=100), i.e. min with 100. -/
def final_risk_score (w : ScoredWallet) : ℚ :=
  min (config.ML_WEIGHT * w.risk_score_ml + config.RULE_WEIGHT * w.risk_score_rule) 100

/-- src/services/risk_engine.py, get_label inside calculate_final_scores. -/
def get_label (s : ℚ) : String :=
  if s ≥ config.RISK_THRESHOLD_CRITICAL then "CRITICAL"
  else if s ≥ config.RISK_THRESHOLD_HIGH then "HIGH"
  else if s ≥ config.RISK_THRESHOLD_MEDIUM then "MEDIUM"
  else "LOW"

/-- The four row fields read by calculate_rules in
src/services/risk_engine.py (field names are the column names the code
indexes the row with). -/
structure RuleInputs where
  passthrough_score : ℚ
  structuring_score : ℚ
  bot_score : ℚ
  snd_Amount_sum : ℚ
deriving DecidableEq

/-- src/services/risk_engine.py, calculate_rules: additive rule score,
capped with min(score, 100). -/
def calculate_rules (row : RuleInputs) : ℚ :=
  let score : ℚ := 0
  let score := if row.passthrough_score > 0 then score + config.RULE_LAYERING_SCORE else score
  let score :=
    if row.structuring_score > config.STRUCTURING_HIGH_THRESHOLD then
      score + config.RULE_STRUCTURING_HIGH_SCORE
    else if row.structuring_score > config.STRUCTURING_MED_THRESHOLD then
      score + config.RULE_STRUCTURING_MED_SCORE
    else score
  let score :=
    if row.bot_score > config.BOT_HIGH_VELOCITY then
      score + config.RULE_SPAM_HIGH_SCORE
    else if row.bot_score > config.BOT_MED_VELOCITY then
      score + config.RULE_SPAM_MED_SCORE
    else score
  let score :=
    if row.snd_Amount_sum > config.VOLUME_ANOMALY_THRESHOLD then
      score + config.RULE_VOLUME_ANOMALY_SCORE
    else score
  min score 100

/-- The label function classifies every score exactly by the threshold
ladder of src/config.py. -/
theorem get_label_ladder (s : ℚ) :
    (get_label s = "CRITICAL" ↔ 75 ≤ s) ∧
    (get_label s = "HIGH" ↔ 50 ≤ s ∧ s < 75) ∧
    (get_label s = "MEDIUM" ↔ 25 ≤ s ∧ s < 50) ∧
    (get_label s = "LOW" ↔ s < 25) := by
  unfold get_label config.RISK_THRESHOLD_CRITICAL config.RISK_THRESHOLD_HIGH
    config.RISK_THRESHOLD_MEDIUM
  split_ifs with h1 h2 h3
  · exact ⟨iff_of_true rfl h1,
      iff_of_false (by decide) (by push_neg; intro _; linarith),
      iff_of_false (by decide) (by push_neg; intro _; linarith),
      iff_of_false (by decide) (not_lt.mpr (by linarith))⟩
  · exact ⟨iff_of_false (by decide) h1,
      iff_of_true rfl ⟨h2, not_le.mp h1⟩,
      iff_of_false (by decide) (by push_neg; intro _; linarith),
      iff_of_false (by decide) (not_lt.mpr (by linarith))⟩
  · exact ⟨iff_of_false (by decide) h1,
      iff_of_false (by decide) (by push_neg; intro h; exact absurd h (not_le.mpr (not_le.mp h2))),
      iff_of_true rfl ⟨h3, not_le.mp h2⟩,
      iff_of_false (by decide) (not_lt.mpr (by linarith))⟩
  · exact ⟨iff_of_false (by decide) h1,
      iff_of_false (by decide) (by push_neg; intro h; exact absurd h (not_le.mpr (not_le.mp h2))),
      iff_of_false (by decide) (by push_neg; intro h; exact absurd h (not_le.mpr (not_le.mp h3))),
      iff_of_true rfl (not_le.mp h3)⟩

/-- Claim C1: for ml_score and rule_score both in [0,100], the blender computes
final_score = clip(0.3·ml + 0.7·rule, max=100), final_score lies in [0,100],
and risk_level follows the threshold ladder exactly:
CRITICAL iff ≥75, else HIGH iff ≥50, else MEDIUM iff ≥25, else LOW. -/
theorem C1_blender_final_score_and_ladder (w : ScoredWallet)
    (hml0 : 0 ≤ w.risk_score_ml) (hml1 : w.risk_score_ml ≤ 100)
    (hr0 : 0 ≤ w.risk_score_rule) (hr1 : w.risk_score_rule ≤ 100) :
    final_risk_score w =
      min (config.ML_WEIGHT * w.risk_score_ml + config.RULE_WEIGHT * w.risk_score_rule) 100 ∧
    0 ≤ final_risk_score w ∧ final_risk_score w ≤ 100 ∧
    (get_label (final_risk_score w) = "CRITICAL" ↔ 75 ≤ final_risk_score w) ∧
    (get_label (final_risk_score w) = "HIGH" ↔
      50 ≤ final_risk_score w ∧ final_risk_score w < 75) ∧
    (get_label (final_risk_score w) = "MEDIUM" ↔
      25 ≤ final_risk_score w ∧ final_risk_score w < 50) ∧
    (get_label (final_risk_score w) = "LOW" ↔ final_risk_score w < 25) := by
  have hdef : final_risk_score w =
      min (config.ML_WEIGHT * w.risk_score_ml + config.RULE_WEIGHT * w.risk_score_rule) 100 := rfl
  have hW : config.ML_WEIGHT = (3:ℚ)/10 := rfl
  have hR : config.RULE_WEIGHT = (7:ℚ)/10 := rfl
  have hsum0 : (0:ℚ) ≤ config.ML_WEIGHT * w.risk_score_ml +
      config.RULE_WEIGHT * w.risk_score_rule := by
    rw [hW, hR]; linarith
  have h0 : 0 ≤ final_risk_score w := by
    rw [hdef]; exact le_min hsum0 (by norm_num)
  have h100 : final_risk_score w ≤ 100 := by
    rw [hdef]; exact min_le_right _ _
  obtain ⟨l1, l2, l3, l4⟩ := get_label_ladder (final_risk_score w)
  exact ⟨hdef, h0, h100, l1, l2, l3, l4⟩

/-- Witness for C1 at ml = 90, rule = 60: final score 69, level HIGH. -/
theorem C1_blender_final_score_and_ladder_witness :
    0 ≤ (90:ℚ) ∧ (90:ℚ) ≤ 100 ∧ 0 ≤ (60:ℚ) ∧ (60:ℚ) ≤ 100 ∧
    (get_label (final_risk_score ⟨90, 60⟩) = "HIGH" ↔
      50 ≤ final_risk_score ⟨90, 60⟩ ∧ final_risk_score ⟨90, 60⟩ < 75) := by
  refine ⟨by norm_num, by norm_num, by norm_num, by norm_num, ?_⟩
  exact (C1_blender_final_score_and_ladder ⟨90, 60⟩
    (by norm_num) (by norm_num) (by norm_num) (by norm_num)).2.2.2.2.1

/-- Claim C2: the rule engine returns min(100, S) where S is the sum of the
layering weight (80) when passthrough_score > 0, the structuring weight
(60 above the high threshold, else 30 above the medium threshold), the spam
weight (50 above high velocity, else 20 above medium velocity), and the
volume-anomaly weight (20) when the sender amount sum exceeds the ceiling;
each condition contributes at most once and the result lies in [0,100]. -/
theorem C2_rule_engine_additive_capped (row : RuleInputs) :
    calculate_rules row =
      min 100
        ((if row.passthrough_score > 0 then config.RULE_LAYERING_SCORE else 0) +
         (if row.structuring_score > config.STRUCTURING_HIGH_THRESHOLD then
            config.RULE_STRUCTURING_HIGH_SCORE
          else if row.structuring_score > config.STRUCTURING_MED_THRESHOLD then
            config.RULE_STRUCTURING_MED_SCORE
          else 0) +
         (if row.bot_score > config.BOT_HIGH_VELOCITY then config.RULE_SPAM_HIGH_SCORE
          else if row.bot_score > config.BOT_MED_VELOCITY then config.RULE_SPAM_MED_SCORE
          else 0) +
         (if row.snd_Amount_sum > config.VOLUME_ANOMALY_THRESHOLD then
            config.RULE_VOLUME_ANOMALY_SCORE
          else 0)) ∧
    0 ≤ calculate_rules row ∧ calculate_rules row ≤ 100 := by
  unfold calculate_rules
  unfold config.RULE_LAYERING_SCORE config.RULE_STRUCTURING_HIGH_SCORE
    config.RULE_STRUCTURING_MED_SCORE config.RULE_SPAM_HIGH_SCORE
    config.RULE_SPAM_MED_SCORE config.RULE_VOLUME_ANOMALY_SCORE
  split_ifs <;>
    refine ⟨by norm_num [min_comm], ?_, ?_⟩ <;>
    norm_num

/-- A pandas row with a dynamic column set: association list from column
name to value.  Lookup of a missing column is Option.none (KeyError). -/
def rowLookup : List (String × ℚ) → String → Option ℚ
  | [], _ => none
  | (k, v) :: rest, c => if k = c then some v else rowLookup rest c

/-- src/services/risk_engine.py, calculate_rules read through dynamic
column lookup, in the order the code indexes the row; a missing column
aborts with none instead of producing a score. -/
def calculate_rules_row (row : List (String × ℚ)) : Option ℚ :=
  (rowLookup row "passthrough_score").bind fun pt =>
  (rowLookup row "structuring_score").bind fun st =>
  (rowLookup row "bot_score").bind fun bot =>
  (rowLookup row "snd_Amount_sum").map fun vol =>
    calculate_rules ⟨pt, st, bot, vol⟩

/-- Column selection df[cols]: every requested column must exist,
otherwise the selection fails (none). -/
def selectColumns (row : List (String × ℚ)) : List String → Option (List ℚ)
  | [] => some []
  | c :: cs => (rowLookup row c).bind fun v => (selectColumns row cs).map fun vs => v :: vs

/-- src/features.py, get_wallet_features: the per-role aggregate column
names after the multi-level flatten and the pkid_count rename. -/
def wallet_feature_columns : List String :=
  ["tx_count", "amount_sum", "amount_mean", "amount_max",
   "gas_fee_ratio_mean", "is_round_mean",
   "avg_seconds_between_tx", "unique_counterparties", "tx_per_minute"]

/-- src/features.py, aggregate_wallet_profiles: wallet metadata columns
joined with the snd_- and rcv_-prefixed per-role aggregates. -/
def aggregation_columns : List String :=
  ["total_transactions", "total_volume_in", "total_volume_out"]
  ++ wallet_feature_columns.map (fun c => "snd_" ++ c)
  ++ wallet_feature_columns.map (fun c => "rcv_" ++ c)

/-- Columns available when calculate_rule_based_scores runs: the
aggregation columns plus the indicator columns added by
calculate_risk_indicators and the risk_score_ml column added by
train_models. -/
def rule_stage_columns : List String :=
  aggregation_columns ++
  ["structuring_score", "passthrough_score", "flow_ratio", "bot_score", "risk_score_ml"]

/-- Lookup of a column name held by no key of the row is none. -/
theorem rowLookup_eq_none (row : List (String × ℚ)) (c : String)
    (h : ∀ p ∈ row, p.1 ≠ c) : rowLookup row c = none := by
  induction row with
  | nil => rfl
  | cons hd tl ih =>
      have hne : hd.1 ≠ c := h hd (List.mem_cons_self hd tl)
      have : rowLookup (hd :: tl) c = rowLookup tl c := by
        obtain ⟨k, v⟩ := hd
        simpa [rowLookup] using fun hk => absurd hk hne
      rw [this]
      exact ih fun p hp => h p (List.mem_cons_of_mem hd hp)

/-- Claim C3: the aggregation stage names the sender amount-sum column
snd_amount_sum (lowercase); the rule engine and the ML feature list
reference snd_Amount_sum (capital A), which no stage defines, so both
fail with a missing-key lookup instead of producing a score. -/
theorem C3_misnamed_amount_column (row : List (String × ℚ))
    (hkeys : ∀ p ∈ row, p.1 ∈ rule_stage_columns) :
    "snd_amount_sum" ∈ aggregation_columns ∧
    "snd_Amount_sum" ∉ rule_stage_columns ∧
    "snd_Amount_sum" ∈ config.ML_FEATURES ∧
    calculate_rules_row row = none ∧
    selectColumns row config.ML_FEATURES = none := by
  have hnotin : "snd_Amount_sum" ∉ rule_stage_columns := by decide
  have hnone : rowLookup row "snd_Amount_sum" = none := by
    refine rowLookup_eq_none row _ fun p hp hpe => ?_
    exact hnotin (hpe ▸ hkeys p hp)
  refine ⟨by decide, hnotin, by decide, ?_, ?_⟩
  · unfold calculate_rules_row
    cases h1 : rowLookup row "passthrough_score" <;>
      cases h2 : rowLookup row "structuring_score" <;>
        cases h3 : rowLookup row "bot_score" <;>
          simp [h1, h2, h3, hnone]
  · have hsel : selectColumns row
        ["snd_Amount_sum", "snd_unique_counterparties",
         "structuring_score", "passthrough_score", "bot_score"] = none := by
      simp [selectColumns, hnone]
    have hstep : selectColumns row config.ML_FEATURES =
        (rowLookup row "snd_tx_count").bind fun v =>
          (selectColumns row
            ["snd_Amount_sum", "snd_unique_counterparties",
             "structuring_score", "passthrough_score", "bot_score"]).map fun vs => v :: vs := rfl
    rw [hstep, hsel]
    cases h1 : rowLookup row "snd_tx_count" <;> simp

/-- Witness for C3 on a concrete four-column row drawn from the rule-stage
column set. -/
theorem C3_misnamed_amount_column_witness :
    (∀ p ∈ ([("passthrough_score", (0:ℚ)), ("structuring_score", 0),
        ("bot_score", 0), ("snd_amount_sum", 0)] : List (String × ℚ)),
      p.1 ∈ rule_stage_columns) ∧
    calculate_rules_row
      [("passthrough_score", 0), ("structuring_score", 0),
       ("bot_score", 0), ("snd_amount_sum", 0)] = none ∧
    selectColumns
      [("passthrough_score", 0), ("structuring_score", 0),
       ("bot_score", 0), ("snd_amount_sum", 0)] config.ML_FEATURES = none := by
  refine ⟨by decide, ?_, ?_⟩
  · exact (C3_misnamed_amount_column _ (by decide)).2.2.2.1
  · exact (C3_misnamed_amount_column _ (by decide)).2.2.2.2

/-- The per-role aggregate columns of src/features.py that the risk
indicator calculator reads (values are rationals; every column exists
after aggregation because of fillna(0)). -/
structure AggWallet where
  snd_tx_count : ℚ
  snd_amount_sum : ℚ
  snd_unique_counterparties : ℚ
  snd_tx_per_minute : ℚ
  rcv_amount_sum : ℚ
deriving DecidableEq

/-- The wallet row after calculate_risk_indicators added its four
columns. -/
structure IndicatorWallet extends AggWallet where
  structuring_score : ℚ
  passthrough_score : ℚ
  flow_ratio : ℚ
  bot_score : ℚ
deriving DecidableEq

/-- src/features.py, calculate_risk_indicators.  The numpy log1p routine
is an opaque parameter; the source applies it to snd_tx_count, so
log1p n stands for ln(1 + n). -/
def calculate_risk_indicators (log1p : ℚ → ℚ) (w : AggWallet) : IndicatorWallet :=
  let structuring :=
    if w.snd_tx_count ≥ config.STRUCTURING_MIN_TX then
      (w.snd_unique_counterparties / (w.snd_tx_count + 1)) * log1p w.snd_tx_count
    else 0
  let flow :=
    if w.rcv_amount_sum > 0 then w.snd_amount_sum / w.rcv_amount_sum else 0
  let pass :=
    if flow ≥ config.PASSTHROUGH_RATIO_MIN ∧ flow ≤ config.PASSTHROUGH_RATIO_MAX ∧
        w.snd_amount_sum > config.PASSTHROUGH_MIN_AMOUNT then (100:ℚ) else 0
  { toAggWallet := w, structuring_score := structuring, passthrough_score := pass,
    flow_ratio := flow, bot_score := w.snd_tx_per_minute }

/-- Claim C4: structuring_score is 0 when snd_tx_count < STRUCTURING_MIN_TX
(5) and equals (snd_unique_counterparties / (snd_tx_count + 1)) · ln(1 +
snd_tx_count) when snd_tx_count ≥ 5. -/
theorem C4_structuring_score (log1p : ℚ → ℚ) (w : AggWallet) :
    (w.snd_tx_count < config.STRUCTURING_MIN_TX →
      (calculate_risk_indicators log1p w).structuring_score = 0) ∧
    (config.STRUCTURING_MIN_TX ≤ w.snd_tx_count →
      (calculate_risk_indicators log1p w).structuring_score =
        (w.snd_unique_counterparties / (w.snd_tx_count + 1)) * log1p w.snd_tx_count) := by
  refine ⟨fun h => ?_, fun h => ?_⟩
  · have h' : ¬ (w.snd_tx_count ≥ config.STRUCTURING_MIN_TX) := not_le.mpr h
    simp [calculate_risk_indicators, h']
  · simp [calculate_risk_indicators, h]

/-- Witness for C4 at snd_tx_count 4 (below the floor) and 5 (at the
floor, with 3 unique counterparties). -/
theorem C4_structuring_score_witness :
    ((4:ℚ) < config.STRUCTURING_MIN_TX) ∧
    (calculate_risk_indicators (fun x => x) ⟨4, 0, 3, 0, 0⟩).structuring_score = 0 ∧
    (config.STRUCTURING_MIN_TX ≤ (5:ℚ)) ∧
    (calculate_risk_indicators (fun x => x) ⟨5, 0, 3, 0, 0⟩).structuring_score = 5/2 := by
  refine ⟨by norm_num [config.STRUCTURING_MIN_TX], ?_,
    by norm_num [config.STRUCTURING_MIN_TX], ?_⟩
  · exact (C4_structuring_score (fun x => x) ⟨4, 0, 3, 0, 0⟩).1
      (by norm_num [config.STRUCTURING_MIN_TX])
  · have h := (C4_structuring_score (fun x => x) ⟨5, 0, 3, 0, 0⟩).2
      (by norm_num [config.STRUCTURING_MIN_TX])
    rw [h]; norm_num

/-- Claim C5: passthrough_score is binary; flow_ratio is
snd_amount_sum / rcv_amount_sum (0 when rcv_amount_sum is not positive);
passthrough_score = 100 exactly when flow_ratio lies in [0.9, 1.1] and
snd_amount_sum strictly exceeds 10. -/
theorem C5_passthrough_score (log1p : ℚ → ℚ) (w : AggWallet) :
    ((calculate_risk_indicators log1p w).passthrough_score = 0 ∨
     (calculate_risk_indicators log1p w).passthrough_score = 100) ∧
    (calculate_risk_indicators log1p w).flow_ratio =
      (if 0 < w.rcv_amount_sum then w.snd_amount_sum / w.rcv_amount_sum else 0) ∧
    ((calculate_risk_indicators log1p w).passthrough_score = 100 ↔
      (9/10 ≤ (calculate_risk_indicators log1p w).flow_ratio ∧
       (calculate_risk_indicators log1p w).flow_ratio ≤ 11/10 ∧
       10 < w.snd_amount_sum)) := by
  unfold calculate_risk_indicators config.PASSTHROUGH_RATIO_MIN
    config.PASSTHROUGH_RATIO_MAX config.PASSTHROUGH_MIN_AMOUNT
  by_cases hrcv : 0 < w.rcv_amount_sum <;>
    by_cases hmask : (9:ℚ)/10 ≤ (if w.rcv_amount_sum > 0 then
        w.snd_amount_sum / w.rcv_amount_sum else 0) ∧
      (if w.rcv_amount_sum > 0 then w.snd_amount_sum / w.rcv_amount_sum else 0) ≤ 11/10 ∧
      10 < w.snd_amount_sum <;>
    simp_all

/-- Maximum of a timestamp column (pandas x.max() on a nonempty group). -/
def listMax : List ℚ → ℚ
  | [] => 0
  | h :: t => t.foldl max h

/-- Minimum of a timestamp column (pandas x.min() on a nonempty group). -/
def listMin : List ℚ → ℚ
  | [] => 0
  | h :: t => t.foldl min h

/-- src/features.py, tx_velocity inside get_wallet_features: timestamps
are in seconds; with fewer than 2 transactions the function returns 0,
otherwise count / (duration_min + 1). -/
def tx_velocity (x : List ℚ) : ℚ :=
  if x.length < 2 then 0
  else (x.length : ℚ) / ((listMax x - listMin x) / 60 + 1)

/-- Counterexample to claim C6: for a role with exactly one transaction the
claim asserts velocity 1 / (0 + 1) = 1, but tx_velocity returns 0. -/
theorem C6_velocity_counterexample :
    tx_velocity [(0:ℚ)] = 0 ∧ (1:ℚ) / (0 / 60 + 1) = 1 ∧
    tx_velocity [(0:ℚ)] ≠ (1:ℚ) / (0 / 60 + 1) := by
  refine ⟨rfl, by norm_num, ?_⟩
  intro h
  rw [show tx_velocity [(0:ℚ)] = 0 from rfl] at h
  norm_num at h

/-- Claim C6 as amended: velocity is 0 when a role has fewer than 2
transactions; with at least 2 it is count / (span_minutes + 1) where
span_minutes is the elapsed minutes between the role's first and last
transaction. -/
theorem C6_velocity_amended (x : List ℚ) :
    (x.length < 2 → tx_velocity x = 0) ∧
    (2 ≤ x.length → tx_velocity x =
      (x.length : ℚ) / ((listMax x - listMin x) / 60 + 1)) := by
  refine ⟨fun h => ?_, fun h => ?_⟩
  · simp [tx_velocity, h]
  · have h' : ¬ x.length < 2 := not_lt.mpr h
    simp [tx_velocity, h']

/-- Witness for the amended C6: two transactions 60 seconds apart give
velocity 2 / (1 + 1) = 1. -/
theorem C6_velocity_amended_witness :
    2 ≤ ([(0:ℚ), 60]).length ∧ tx_velocity [(0:ℚ), 60] = 1 := by
  refine ⟨by simp, ?_⟩
  have h := (C6_velocity_amended [(0:ℚ), 60]).2 (by simp)
  rw [h]
  norm_num [listMax, listMin]

/-- The wallet fields read by train_models in src/modeling/train.py:
the dataframe index (address) and the ML eligibility column. -/
structure MLWallet where
  address : String
  snd_tx_count : ℚ
deriving DecidableEq

/-- src/modeling/train.py, train_models, reduced to the risk_score_ml
column it assigns.  The anomaly ensemble (scaler, isolation forest, local
outlier factor, min-max normalization) is the opaque parameter mlScore;
the control flow is the source's: drop VALIDATION_TARGETS, filter to
snd_tx_count ≥ MIN_TX_FOR_ML, skip (all zeros) when that subset has at
most 5 members, otherwise score the eligible wallets and fillna(0) the
rest through the left join. -/
def train_models_scores (mlScore : String → ℚ) (active_wallets : List MLWallet) :
    List (String × ℚ) :=
  if ((active_wallets.filter fun w => decide (w.address ∉ config.VALIDATION_TARGETS)).filter
        fun w => decide (w.snd_tx_count ≥ config.MIN_TX_FOR_ML)).length ≤ 5 then
    active_wallets.map fun w => (w.address, 0)
  else
    active_wallets.map fun w =>
      (w.address, if w.snd_tx_count ≥ config.MIN_TX_FOR_ML then mlScore w.address else 0)

/-- Filtering first by another predicate can only shrink a filtered list. -/
theorem length_filter_filter_le {α : Type} (p q : α → Bool) (l : List α) :
    ((l.filter p).filter q).length ≤ (l.filter q).length := by
  induction l with
  | nil => simp
  | cons a t ih =>
      by_cases hp : p a <;> by_cases hq : q a <;>
        simp [List.filter_cons, hp, hq, -List.filter_filter] <;> omega

/-- An element of l.zip (l.map f) pairs each element with its image. -/
theorem mem_zip_map {α β : Type} (f : α → β) (l : List α) (p : α × β)
    (hp : p ∈ l.zip (l.map f)) : p.2 = f p.1 := by
  induction l with
  | nil => simp at hp
  | cons a t ih =>
      rw [List.map_cons, List.zip_cons_cons] at hp
      rcases List.mem_cons.mp hp with h | h
      · rw [h]
      · exact ih h

/-- Claim C7: wallets below MIN_TX_FOR_ML (2) always receive ml_score 0,
and whenever the ML-eligible subset has at most 5 members the whole run
degrades to ml_score 0 for every wallet while still returning a scored
table. -/
theorem C7_ml_gating (mlScore : String → ℚ) (wallets : List MLWallet) :
    (∀ p ∈ wallets.zip (train_models_scores mlScore wallets),
      p.1.snd_tx_count < config.MIN_TX_FOR_ML → p.2.2 = 0) ∧
    ((wallets.filter fun w => decide (w.snd_tx_count ≥ config.MIN_TX_FOR_ML)).length ≤ 5 →
      ∀ r ∈ train_models_scores mlScore wallets, r.2 = 0) := by
  constructor
  · intro p hp hlt
    unfold train_models_scores at hp
    split_ifs at hp with hb
    · rw [mem_zip_map _ _ _ hp]
    · rw [mem_zip_map _ _ _ hp]
      simp [not_le.mpr hlt]
  · intro hle r hr
    unfold train_models_scores at hr
    have hb : ((wallets.filter fun w =>
          decide (w.address ∉ config.VALIDATION_TARGETS)).filter
        fun w => decide (w.snd_tx_count ≥ config.MIN_TX_FOR_ML)).length ≤ 5 :=
      le_trans (length_filter_filter_le _ _ wallets) hle
    rw [if_pos hb] at hr
    rcases List.mem_map.mp hr with ⟨w, hw, hweq⟩
    rw [show r.2 = 0 from by rw [show r = (w.address, 0) from hweq.symm]]

/-- Witness for C7: three wallets with a single eligible one (count 5);
the eligible subset has 1 ≤ 5 members, so every wallet scores 0. -/
theorem C7_ml_gating_witness :
    (([⟨"0xA", 1⟩, ⟨"0xB", 5⟩, ⟨"0xC", 0⟩] : List MLWallet).filter
        fun w => decide (w.snd_tx_count ≥ config.MIN_TX_FOR_ML)).length ≤ 5 ∧
    ∀ r ∈ train_models_scores (fun _ => 37) [⟨"0xA", 1⟩, ⟨"0xB", 5⟩, ⟨"0xC", 0⟩], r.2 = 0 := by
  refine ⟨by decide, ?_⟩
  exact (C7_ml_gating (fun _ => 37) _).2 (by decide)

/-- src/graph_analysis.py, detect_wash_trading: canonicalization of one
cycle by Python sorted(...). -/
def sortAddrs {α : Type} [LinearOrder α] (c : List α) : List α :=
  List.insertionSort (fun x y => x ≤ y) c

/-- src/graph_analysis.py, detect_wash_trading applied to the cycle list
produced by nx.simple_cycles: keep cycles of length 2 or 3, sort each,
and collapse to a set of unique tuples. -/
def detect_wash_trading {α : Type} [LinearOrder α] (cycles : List (List α)) :
    Finset (List α) :=
  ((cycles.filter fun c => decide (c.length = 2 ∨ c.length = 3)).map sortAddrs).toFinset

/-- Edges traversed by a cycle given as a node list, last node closing
back to the first (the convention of nx.simple_cycles output). -/
def cycleEdges {α : Type} : List α → List (α × α)
  | [] => []
  | a :: rest => (a :: rest).zip (rest ++ [a])

/-- c is a directed simple cycle of the digraph with edge list g. -/
def IsSimpleCycle {α : Type} (g : List (α × α)) (c : List α) : Prop :=
  c ≠ [] ∧ c.Nodup ∧ ∀ e ∈ cycleEdges c, e ∈ g

/-- Sorting is a canonical form: permuted inputs sort identically. -/
theorem sortAddrs_eq_of_perm {α : Type} [LinearOrder α] {c₁ c₂ : List α}
    (h : c₁.Perm c₂) : sortAddrs c₁ = sortAddrs c₂ := by
  unfold sortAddrs
  exact List.eq_of_perm_of_sorted
    ((List.perm_insertionSort _ c₁).trans (h.trans (List.perm_insertionSort _ c₂).symm))
    (List.sorted_insertionSort _ c₁)
    (List.sorted_insertionSort _ c₂)

/-- Membership in the wash-trading result set. -/
theorem mem_detect_wash_trading {α : Type} [LinearOrder α]
    (L : List (List α)) (s : List α) :
    s ∈ detect_wash_trading L ↔
      ∃ c ∈ L, (c.length = 2 ∨ c.length = 3) ∧ s = sortAddrs c := by
  simp only [detect_wash_trading, List.mem_toFinset, List.mem_map, List.mem_filter,
    decide_eq_true_eq]
  constructor
  · rintro ⟨c, ⟨hc, hlen⟩, rfl⟩
    exact ⟨c, hc, hlen, rfl⟩
  · rintro ⟨c, hc, hlen, rfl⟩
    exact ⟨c, ⟨hc, hlen⟩, rfl⟩

/-- The digraph with exactly the edges a→b and b→a has exactly the
directed simple cycles [a,b] and [b,a]. -/
theorem simple_cycles_two_cycle {α : Type} [DecidableEq α] {a b : α} (hab : a ≠ b)
    (c : List α) : IsSimpleCycle [(a, b), (b, a)] c ↔ c = [a, b] ∨ c = [b, a] := by
  constructor
  · rintro ⟨hne, hnd, hedges⟩
    cases c with
    | nil => exact absurd rfl hne
    | cons x t =>
      cases t with
      | nil =>
          have hx : (x, x) ∈ [(a, b), (b, a)] := hedges (x, x) (by simp [cycleEdges])
          simp only [List.mem_cons, List.mem_singleton, Prod.mk.injEq,
            List.not_mem_nil, or_false] at hx
          rcases hx with ⟨h1, h2⟩ | ⟨h1, h2⟩
          · exact absurd (h1.symm.trans h2) hab
          · exact absurd (h2.symm.trans h1) hab
      | cons y t2 =>
        cases t2 with
        | nil =>
            have hxy : (x, y) ∈ [(a, b), (b, a)] := hedges (x, y) (by simp [cycleEdges])
            simp only [List.mem_cons, List.mem_singleton, Prod.mk.injEq,
              List.not_mem_nil, or_false] at hxy
            rcases hxy with ⟨h1, h2⟩ | ⟨h1, h2⟩
            · left; rw [h1, h2]
            · right; rw [h1, h2]
        | cons z t3 =>
            have hxy : (x, y) ∈ [(a, b), (b, a)] := hedges (x, y) (by simp [cycleEdges])
            have hyz : (y, z) ∈ [(a, b), (b, a)] := hedges (y, z) (by simp [cycleEdges])
            rcases List.nodup_cons.mp hnd with ⟨hx1, hnd2⟩
            rcases List.nodup_cons.mp hnd2 with ⟨hy1, _⟩
            have hxz : x ≠ z := fun h => hx1 (by
              rw [h]
              exact List.mem_cons_of_mem y (List.mem_cons_self z t3))
            simp only [List.mem_cons, List.mem_singleton, Prod.mk.injEq,
              List.not_mem_nil, or_false] at hxy hyz
            rcases hxy with ⟨rfl, rfl⟩ | ⟨rfl, rfl⟩
            · rcases hyz with ⟨h1, _⟩ | ⟨_, h2⟩
              · exact absurd h1.symm hab
              · exact absurd h2.symm hxz
            · rcases hyz with ⟨_, h2⟩ | ⟨h1, _⟩
              · exact absurd h2.symm hxz
              · exact absurd h1 hab
  · rintro (rfl | rfl)
    · refine ⟨by simp, by simp [hab], fun e he => ?_⟩
      simpa [cycleEdges] using he
    · refine ⟨by simp, by simp [hab.symm], fun e he => ?_⟩
      simp [cycleEdges] at he
      rcases he with rfl | rfl <;> simp

/-- Claim C8: the wash-trading result holds one canonical sorted tuple per
cycle of length 2 or 3 (membership characterization), every reported group
has size 2 or 3, the result is independent of the discovery order and
rotation of the cycles, and for the graph consisting of A→B and B→A the
result is exactly the singleton of the sorted pair. -/
theorem C8_wash_trading_canonical (α : Type) [LinearOrder α] :
    (∀ L : List (List α), ∀ s ∈ detect_wash_trading L,
      s.length = 2 ∨ s.length = 3) ∧
    (∀ (L : List (List α)) (s : List α), s ∈ detect_wash_trading L ↔
      ∃ c ∈ L, (c.length = 2 ∨ c.length = 3) ∧ s = sortAddrs c) ∧
    (∀ L₁ L₂ : List (List α),
      (∀ c, (∃ c₁ ∈ L₁, c₁.Perm c) ↔ (∃ c₂ ∈ L₂, c₂.Perm c)) →
      detect_wash_trading L₁ = detect_wash_trading L₂) ∧
    (∀ a b : α, a ≠ b → ∀ L : List (List α), L ≠ [] →
      (∀ c ∈ L, IsSimpleCycle [(a, b), (b, a)] c) →
      detect_wash_trading L = {sortAddrs [a, b]}) := by
  have hlen : ∀ c : List α, (sortAddrs c).length = c.length :=
    fun c => (List.perm_insertionSort _ c).length_eq
  refine ⟨?_, mem_detect_wash_trading, ?_, ?_⟩
  · intro L s hs
    rcases (mem_detect_wash_trading L s).mp hs with ⟨c, _, hc, rfl⟩
    rcases hc with h2 | h3
    · left; rw [hlen, h2]
    · right; rw [hlen, h3]
  · intro L₁ L₂ hsame
    ext s
    rw [mem_detect_wash_trading, mem_detect_wash_trading]
    constructor
    · rintro ⟨c, hc, hclen, rfl⟩
      rcases (hsame c).mp ⟨c, hc, List.Perm.refl c⟩ with ⟨c₂, hc₂, hperm⟩
      refine ⟨c₂, hc₂, ?_, (sortAddrs_eq_of_perm hperm).symm⟩
      rw [hperm.length_eq]; exact hclen
    · rintro ⟨c, hc, hclen, rfl⟩
      rcases (hsame c).mpr ⟨c, hc, List.Perm.refl c⟩ with ⟨c₁, hc₁, hperm⟩
      refine ⟨c₁, hc₁, ?_, (sortAddrs_eq_of_perm hperm).symm⟩
      rw [hperm.length_eq]; exact hclen
  · intro a b hab L hLne hcyc
    have hsw : sortAddrs [b, a] = sortAddrs [a, b] :=
      sortAddrs_eq_of_perm (List.Perm.swap a b [])
    ext s
    rw [mem_detect_wash_trading, Finset.mem_singleton]
    constructor
    · rintro ⟨c, hc, _, rfl⟩
      rcases (simple_cycles_two_cycle hab c).mp (hcyc c hc) with rfl | rfl
      · rfl
      · exact hsw
    · rintro rfl
      rcases List.exists_mem_of_ne_nil L hLne with ⟨c₀, hc₀⟩
      rcases (simple_cycles_two_cycle hab c₀).mp (hcyc c₀ hc₀) with rfl | rfl
      · exact ⟨[a, b], hc₀, Or.inl rfl, rfl⟩
      · exact ⟨[b, a], hc₀, Or.inl rfl, hsw.symm⟩

/-- Witness for C8: the two-node graph 0→1, 1→0 over ℕ, enumerated as the
single cycle [0, 1]; the result is exactly the sorted pair. -/
theorem C8_wash_trading_canonical_witness :
    (0 : ℕ) ≠ 1 ∧
    ([[(0:ℕ), 1]] : List (List ℕ)) ≠ [] ∧
    (∀ c ∈ ([[(0:ℕ), 1]] : List (List ℕ)), IsSimpleCycle [(0, 1), (1, 0)] c) ∧
    detect_wash_trading [[(0:ℕ), 1]] = {sortAddrs [0, 1]} := by
  refine ⟨by decide, by decide, ?_, ?_⟩
  · intro c hc
    rw [List.mem_singleton.mp hc]
    exact ⟨by decide, by decide, by decide⟩
  · refine (C8_wash_trading_canonical ℕ).2.2.2 0 1 (by decide) _ (by decide) ?_
    intro c hc
    rw [List.mem_singleton.mp hc]
    exact ⟨by decide, by decide, by decide⟩

/-- The transaction columns read by the graph investigation stage
(src/graph_analysis.py uses the unnormalized capitalized names). -/
structure GTx (α : Type) where
  FromAddress : α
  ToAddress : α
  Amount : ℚ
deriving DecidableEq

/-- src/graph_analysis.py, detect_mixer_usage: senders of at least one
transaction whose amount is in round_amounts, unique()d. -/
def detect_mixer_usage {α : Type} [DecidableEq α] (df_tx : List (GTx α))
    (round_amounts : List ℚ) : List α :=
  ((df_tx.filter fun t => decide (t.Amount ∈ round_amounts)).map
    (fun t => t.FromAddress)).dedup

/-- A wallet row after add_graph_flags_to_wallets added both boolean
flag columns. -/
structure FlaggedWallet (α : Type) where
  address : α
  wash_trading_flag : Bool
  mixer_suspect_flag : Bool
deriving DecidableEq

/-- src/graph_analysis.py, add_graph_flags_to_wallets: flags by index
membership, with the wash-trade groups unioned first. -/
def add_graph_flags_to_wallets {α : Type} [DecidableEq α] (wallets : List α)
    (wash_trades : List (List α)) (mixer_users : List α) : List (FlaggedWallet α) :=
  let wash_trade_wallets := wash_trades.foldl (fun s g => s ++ g) []
  wallets.map fun a =>
    ⟨a, decide (a ∈ wash_trade_wallets), decide (a ∈ mixer_users)⟩

/-- Projecting the address back out of a row built from an address. -/
theorem map_address_mk {α : Type} (g h : α → Bool) (l : List α) :
    ((l.map fun a => (⟨a, g a, h a⟩ : FlaggedWallet α)).map fun w => w.address) = l := by
  induction l with
  | nil => rfl
  | cons a t ih => simp only [List.map_cons, ih]

/-- Membership in the mixer-suspect list is exactly sending one
round-amount transaction. -/
theorem mem_detect_mixer_usage {α : Type} [DecidableEq α] (txs : List (GTx α))
    (R : List ℚ) (a : α) :
    a ∈ detect_mixer_usage txs R ↔ ∃ t ∈ txs, t.FromAddress = a ∧ t.Amount ∈ R := by
  simp only [detect_mixer_usage, List.mem_dedup, List.mem_map, List.mem_filter,
    decide_eq_true_eq]
  constructor
  · rintro ⟨t, ⟨ht, hR⟩, rfl⟩
    exact ⟨t, ht, rfl, hR⟩
  · rintro ⟨t, ht, rfl, hR⟩
    exact ⟨t, ⟨ht, hR⟩, rfl⟩

/-- Claim C9: after graph-flag projection every wallet appears once with
its address, and mixer_suspect_flag is true iff the wallet sent at least
one analyzed transaction whose amount is exactly in ROUND_AMOUNTS. -/
theorem C9_mixer_flag {α : Type} [DecidableEq α] (txs : List (GTx α))
    (wash : List (List α)) (wallets : List α) :
    ((add_graph_flags_to_wallets wallets wash
        (detect_mixer_usage txs config.ROUND_AMOUNTS)).map
      (fun w => w.address) = wallets) ∧
    ∀ w ∈ add_graph_flags_to_wallets wallets wash
        (detect_mixer_usage txs config.ROUND_AMOUNTS),
      (w.mixer_suspect_flag = true ↔
        ∃ t ∈ txs, t.FromAddress = w.address ∧ t.Amount ∈ config.ROUND_AMOUNTS) := by
  constructor
  · exact map_address_mk _ _ wallets
  · intro w hw
    unfold add_graph_flags_to_wallets at hw
    rcases List.mem_map.mp hw with ⟨a, _, rfl⟩
    simpa [decide_eq_true_eq] using mem_detect_mixer_usage txs config.ROUND_AMOUNTS a

/-- Witness for C9: wallet W1 sends amount 10.0 (a round denomination) and
is flagged; wallet W2 sends only 10.37 and is not. -/
theorem C9_mixer_flag_witness :
    (∃ w ∈ add_graph_flags_to_wallets ["W1", "W2"] []
        (detect_mixer_usage
          [⟨"W1", "X", 10⟩, ⟨"W2", "X", 1037/100⟩] config.ROUND_AMOUNTS),
      w.address = "W1" ∧ w.mixer_suspect_flag = true) ∧
    (∃ w ∈ add_graph_flags_to_wallets ["W1", "W2"] []
        (detect_mixer_usage
          [⟨"W1", "X", 10⟩, ⟨"W2", "X", 1037/100⟩] config.ROUND_AMOUNTS),
      w.address = "W2" ∧ w.mixer_suspect_flag = false) := by
  obtain ⟨hmap, hflag⟩ := C9_mixer_flag
    [(⟨"W1", "X", 10⟩ : GTx String), ⟨"W2", "X", 1037/100⟩] [] ["W1", "W2"]
  have h1 : "W1" ∈ (add_graph_flags_to_wallets ["W1", "W2"] []
      (detect_mixer_usage
        [(⟨"W1", "X", 10⟩ : GTx String), ⟨"W2", "X", 1037/100⟩]
        config.ROUND_AMOUNTS)).map (fun w => w.address) := by
    rw [hmap]; simp
  have h2 : "W2" ∈ (add_graph_flags_to_wallets ["W1", "W2"] []
      (detect_mixer_usage
        [(⟨"W1", "X", 10⟩ : GTx String), ⟨"W2", "X", 1037/100⟩]
        config.ROUND_AMOUNTS)).map (fun w => w.address) := by
    rw [hmap]; simp
  rcases List.mem_map.mp h1 with ⟨w1, hw1, haddr1⟩
  rcases List.mem_map.mp h2 with ⟨w2, hw2, haddr2⟩
  have hf1 : w1.mixer_suspect_flag = true :=
    (hflag w1 hw1).mpr
      ⟨⟨"W1", "X", 10⟩, by simp, haddr1.symm, by norm_num [config.ROUND_AMOUNTS]⟩
  have hf2 : w2.mixer_suspect_flag = false := by
    have hne : ¬ ∃ t ∈ [(⟨"W1", "X", 10⟩ : GTx String), ⟨"W2", "X", 1037/100⟩],
        t.FromAddress = w2.address ∧ t.Amount ∈ config.ROUND_AMOUNTS := by
      rintro ⟨t, ht, hfrom, hmem⟩
      rw [haddr2] at hfrom
      rcases List.mem_cons.mp ht with rfl | ht2
      · simp at hfrom
      · rcases List.mem_singleton.mp ht2 with rfl
        norm_num [config.ROUND_AMOUNTS] at hmem
    cases hb : w2.mixer_suspect_flag
    · rfl
    · exact absurd ((hflag w2 hw2).mp hb) hne
  exact ⟨⟨w1, hw1, haddr1, hf1⟩, ⟨w2, hw2, haddr2, hf2⟩⟩

/-- A wallet row for the indicator stage seen as a pandas table row:
the aggregate columns always exist; the indicator columns are Option,
none meaning the column has not been assigned yet. -/
structure IndRow extends AggWallet where
  structuring_score : Option ℚ
  passthrough_score : Option ℚ
  flow_ratio : Option ℚ
  bot_score : Option ℚ
deriving DecidableEq

/-- The column assignments of calculate_risk_indicators over a whole
table (values shared with the per-wallet embedding). -/
def calculate_risk_indicators_table (log1p : ℚ → ℚ) (t : List IndRow) : List IndRow :=
  t.map fun r =>
    { r with
      structuring_score :=
        some ((calculate_risk_indicators log1p r.toAggWallet).structuring_score),
      passthrough_score :=
        some ((calculate_risk_indicators log1p r.toAggWallet).passthrough_score),
      flow_ratio := some ((calculate_risk_indicators log1p r.toAggWallet).flow_ratio),
      bot_score := some ((calculate_risk_indicators log1p r.toAggWallet).bot_score) }

/-- A wallet row for the graph-flag stage: the two flag columns are
Option, none meaning not yet assigned. -/
structure FlagRow (α : Type) where
  address : α
  wash_trading_flag : Option Bool
  mixer_suspect_flag : Option Bool
deriving DecidableEq

/-- The column assignments of add_graph_flags_to_wallets over a whole
table. -/
def add_graph_flags_table {α : Type} [DecidableEq α]
    (wash_trade_wallets mixer_users : List α) (t : List (FlagRow α)) : List (FlagRow α) :=
  t.map fun r =>
    { r with
      wash_trading_flag := some (decide (r.address ∈ wash_trade_wallets)),
      mixer_suspect_flag := some (decide (r.address ∈ mixer_users)) }

/-- Pandas column assignment on a shared frame: the stage receives an
object id into a heap of tables, rewrites that object in place, and
returns the same id.  This is the semantics of df[col] = ... followed by
return df in src/features.py, src/services/risk_engine.py and
src/graph_analysis.py. -/
def applyStageInPlace {β : Type} (stage : β → β) (heap : Nat → β) (x : Nat) :
    (Nat → β) × Nat :=
  (fun i => if i = x then stage (heap i) else heap i, x)

/-- Counterexample to claim C10: running the indicator stage on object 0
returns object 0 itself, and afterwards the table the caller passed in is
no longer equal to what it was — the stage mutates the mapping it
received instead of building an augmented copy. -/
theorem C10_stage_mutates_counterexample :
    (applyStageInPlace (calculate_risk_indicators_table (fun v => v))
        (fun _ => [⟨⟨0, 0, 0, 0, 0⟩, none, none, none, none⟩]) 0).2 = 0 ∧
    (applyStageInPlace (calculate_risk_indicators_table (fun v => v))
        (fun _ => [⟨⟨0, 0, 0, 0, 0⟩, none, none, none, none⟩]) 0).1 0 ≠
      [⟨⟨0, 0, 0, 0, 0⟩, (none : Option ℚ), none, none, none⟩] := by
  refine ⟨rfl, fun h => ?_⟩
  have h2 : calculate_risk_indicators_table (fun v => v)
      [⟨⟨0, 0, 0, 0, 0⟩, none, none, none, none⟩] =
      [⟨⟨0, 0, 0, 0, 0⟩, (none : Option ℚ), none, none, none⟩] := by
    simpa [applyStageInPlace] using h
  simp [calculate_risk_indicators_table] at h2

/-- A wallet row for the rule-scoring stage: the columns calculate_rules
reads always exist at that point in the row model; the risk_score_rule
column is Option, none meaning not yet assigned. -/
structure RuleRow extends RuleInputs where
  risk_score_rule : Option ℚ
deriving DecidableEq

/-- The column assignment of calculate_rule_based_scores over a whole
table: risk_score_rule = apply(calculate_rules) (value shared with the
per-row embedding). -/
def calculate_rule_based_scores_table (t : List RuleRow) : List RuleRow :=
  t.map fun r => { r with risk_score_rule := some (calculate_rules r.toRuleInputs) }

/-- A wallet row for the final-scoring stage: the two score columns the
blender reads always exist; FINAL_RISK_SCORE and Risk_Level are Option,
none meaning not yet assigned. -/
structure FinalRow extends ScoredWallet where
  FINAL_RISK_SCORE : Option ℚ
  Risk_Level : Option String
deriving DecidableEq

/-- The column assignments of calculate_final_scores over a whole table:
FINAL_RISK_SCORE is the clipped weighted blend and Risk_Level its label
(values shared with the per-row embedding). -/
def calculate_final_scores_table (t : List FinalRow) : List FinalRow :=
  t.map fun r =>
    { r with
      FINAL_RISK_SCORE := some (final_risk_score r.toScoredWallet),
      Risk_Level := some (get_label (final_risk_score r.toScoredWallet)) }

/-- Claim C10 as amended: each stage (indicator calculation, rule scoring,
final scoring, graph-flag projection) augments the wallet table in place:
it returns the very object id it received, that object now holds the
augmented table, and every other object is untouched (only the
aggregation stage copies its input). -/
theorem C10_stages_in_place_amended {α : Type} [DecidableEq α]
    (log1p : ℚ → ℚ) (heap : Nat → List IndRow)
    (heap2 : Nat → List RuleRow) (heap3 : Nat → List FinalRow)
    (heap4 : Nat → List (FlagRow α)) (wash mix : List α) (x : Nat) :
    ((applyStageInPlace (calculate_risk_indicators_table log1p) heap x).2 = x ∧
     (applyStageInPlace (calculate_risk_indicators_table log1p) heap x).1 x =
       calculate_risk_indicators_table log1p (heap x) ∧
     ∀ i, i ≠ x →
       (applyStageInPlace (calculate_risk_indicators_table log1p) heap x).1 i = heap i) ∧
    ((applyStageInPlace calculate_rule_based_scores_table heap2 x).2 = x ∧
     (applyStageInPlace calculate_rule_based_scores_table heap2 x).1 x =
       calculate_rule_based_scores_table (heap2 x) ∧
     ∀ i, i ≠ x →
       (applyStageInPlace calculate_rule_based_scores_table heap2 x).1 i = heap2 i) ∧
    ((applyStageInPlace calculate_final_scores_table heap3 x).2 = x ∧
     (applyStageInPlace calculate_final_scores_table heap3 x).1 x =
       calculate_final_scores_table (heap3 x) ∧
     ∀ i, i ≠ x →
       (applyStageInPlace calculate_final_scores_table heap3 x).1 i = heap3 i) ∧
    ((applyStageInPlace (add_graph_flags_table wash mix) heap4 x).2 = x ∧
     (applyStageInPlace (add_graph_flags_table wash mix) heap4 x).1 x =
       add_graph_flags_table wash mix (heap4 x) ∧
     ∀ i, i ≠ x →
       (applyStageInPlace (add_graph_flags_table wash mix) heap4 x).1 i = heap4 i) := by
  refine ⟨⟨rfl, by simp [applyStageInPlace], fun i hi => by simp [applyStageInPlace, hi]⟩,
         ⟨rfl, by simp [applyStageInPlace], fun i hi => by simp [applyStageInPlace, hi]⟩,
         ⟨rfl, by simp [applyStageInPlace], fun i hi => by simp [applyStageInPlace, hi]⟩,
         ⟨rfl, by simp [applyStageInPlace], fun i hi => by simp [applyStageInPlace, hi]⟩⟩

/-- Witness for the amended C10: object 1 is untouched when each of the
four stages runs on object 0. -/
theorem C10_stages_in_place_amended_witness :
    (1:ℕ) ≠ 0 ∧
    (applyStageInPlace (calculate_risk_indicators_table (fun v => v))
      (fun _ => ([] : List IndRow)) 0).1 1 = [] ∧
    (applyStageInPlace calculate_rule_based_scores_table
      (fun _ => ([] : List RuleRow)) 0).1 1 = [] ∧
    (applyStageInPlace calculate_final_scores_table
      (fun _ => ([] : List FinalRow)) 0).1 1 = [] ∧
    (applyStageInPlace (add_graph_flags_table ([] : List ℕ) [])
      (fun _ => ([] : List (FlagRow ℕ))) 0).1 1 = [] := by
  refine ⟨by decide, ?_, ?_, ?_, ?_⟩
  · exact (C10_stages_in_place_amended (fun v => v)
      (fun _ => ([] : List IndRow)) (fun _ => ([] : List RuleRow))
      (fun _ => ([] : List FinalRow)) (fun _ => ([] : List (FlagRow ℕ)))
      [] [] 0).1.2.2 1 (by decide)
  · exact (C10_stages_in_place_amended (fun v => v)
      (fun _ => ([] : List IndRow)) (fun _ => ([] : List RuleRow))
      (fun _ => ([] : List FinalRow)) (fun _ => ([] : List (FlagRow ℕ)))
      [] [] 0).2.1.2.2 1 (by decide)
  · exact (C10_stages_in_place_amended (fun v => v)
      (fun _ => ([] : List IndRow)) (fun _ => ([] : List RuleRow))
      (fun _ => ([] : List FinalRow)) (fun _ => ([] : List (FlagRow ℕ)))
      [] [] 0).2.2.1.2.2 1 (by decide)
  · exact (C10_stages_in_place_amended (fun v => v)
      (fun _ => ([] : List IndRow)) (fun _ => ([] : List RuleRow))
      (fun _ => ([] : List FinalRow)) (fun _ => ([] : List (FlagRow ℕ)))
      [] [] 0).2.2.2.2.2 1 (by decide)

end CryptoTrace
